import Mathlib

/-!
Verification of the guessing-game program (src/guessing_game/src/main.rs)
against its natural-language specification.

The program is shallowly embedded: standard input is a list of read events
(a line delivered, or an I/O failure), standard output is the list of lines
printed, and the unbounded `loop` is given explicit fuel.  Machine integers
(u32) are modelled as `Nat` with explicit `< 2 ^ 32` bounds where the source
checks them (inside `str::parse::<u32>`).
-/

namespace GuessingGame

/-- Characters with the Unicode White_Space property, as removed by Rust's
`str::trim` (the `guess.trim()` call in main.rs). -/
def isRustWhitespace (c : Char) : Bool :=
  (0x9 ≤ c.toNat && c.toNat ≤ 0xd) || c.toNat == 0x20 || c.toNat == 0x85 ||
  c.toNat == 0xa0 || c.toNat == 0x1680 ||
  (0x2000 ≤ c.toNat && c.toNat ≤ 0x200a) || c.toNat == 0x2028 ||
  c.toNat == 0x2029 || c.toNat == 0x202f || c.toNat == 0x205f ||
  c.toNat == 0x3000

/-- Remove leading and trailing whitespace characters from a character list. -/
def trimChars (cs : List Char) : List Char :=
  ((cs.dropWhile isRustWhitespace).reverse.dropWhile isRustWhitespace).reverse

/-- Rust's `str::trim`: strip whitespace (including `\n` / `\r\n` line
terminators) from both ends of the string. -/
def rustTrim (s : String) : String :=
  String.mk (trimChars s.data)

/-- ASCII decimal digit, the only digit characters `u32::from_str` accepts. -/
def isAsciiDigit (c : Char) : Bool :=
  0x30 ≤ c.toNat && c.toNat ≤ 0x39

/-- Base-10 value of a digit-character list, accumulated left to right as the
integer parser does. -/
def digitsVal (l : List Char) : Nat :=
  l.foldl (fun acc c => acc * 10 + (c.toNat - 0x30)) 0

/-- Rust's `str::parse::<u32>` (`u32::from_str`): an optional leading `+`,
then one or more ASCII digits whose value fits in 32 unsigned bits; anything
else (empty string, sign `-`, non-digit characters, overflow) is an error,
modelled as `none`. -/
def parseU32 (s : String) : Option Nat :=
  let cs := s.data
  let ds := if cs.head? == some '+' then cs.tail else cs
  if ds.isEmpty then none
  else if ds.all isAsciiDigit then
    if digitsVal ds < 2 ^ 32 then some (digitsVal ds) else none
  else none

/-- `u32::cmp`, the total-order comparison `guess.cmp(&secret_number)`:
`Ordering.lt`, `Ordering.gt`, `Ordering.eq` stand for Rust's
`Ordering::Less`, `Ordering::Greater`, `Ordering::Equal`. -/
def cmpU32 (a b : Nat) : Ordering :=
  if a < b then Ordering.lt else if b < a then Ordering.gt else Ordering.eq

/-- One interaction with standard input: either a line of text is delivered
(its trailing terminator, if any, is part of the string, as `read_line`
keeps it), or the underlying read fails with an I/O error. -/
inductive ReadEvent where
  | line (s : String)
  | ioError
deriving DecidableEq

/-- How a (fuel-bounded) run of the loop ends: the `break` after
"You win!" (`won`), the panic raised by `.expect("Failed to read line")`
(`panicked`), or still looping when the fuel ran out (`running`). -/
inductive Outcome where
  | won
  | panicked (msg : String)
  | running
deriving DecidableEq

/-- Process exit code produced by each way the program can stop: a normal
return from `main` exits with 0, a Rust panic exits with 101, and a run still
in the loop has not exited. -/
def exitCode : Outcome → Option Nat
  | Outcome.won => some 0
  | Outcome.panicked _ => some 101
  | Outcome.running => none

/-- Semantics of `io::stdin().read_line(&mut guess)` on the remaining input
stream: an I/O failure makes the read fail (`none`, and `.expect` panics);
end-of-file is NOT a failure — `read_line` returns `Ok(0)` and the buffer
stays empty, modelled as delivering the empty line with the stream still
exhausted. -/
def readLine : List ReadEvent → Option (String × List ReadEvent)
  | [] => some ("", [])
  | ReadEvent.line s :: rest => some (s, rest)
  | ReadEvent.ioError :: _ => none

/-- The `loop { ... }` of `main`, with explicit fuel bounding the number of
iterations considered.  Each iteration prints the prompt, reads a line
(panicking on an I/O error), trims and parses it (`continue` on a parse
error), echoes an accepted guess, then compares it with the secret number:
too small / too big continue the loop, equality prints "You win!" and
breaks. -/
def loopRun (secret_number : Nat) : Nat → List ReadEvent → List String × Outcome
  | 0, _ => ([], Outcome.running)
  | fuel + 1, input =>
    match readLine input with
    | none => (["Please input your guess."], Outcome.panicked "Failed to read line")
    | some (raw, rest) =>
      match parseU32 (rustTrim raw) with
      | none =>
        ("Please input your guess." :: (loopRun secret_number fuel rest).1,
         (loopRun secret_number fuel rest).2)
      | some guess =>
        match cmpU32 guess secret_number with
        | Ordering.lt =>
          ("Please input your guess." :: ("You guessed: " ++ Nat.repr guess) ::
             "Too small!" :: (loopRun secret_number fuel rest).1,
           (loopRun secret_number fuel rest).2)
        | Ordering.gt =>
          ("Please input your guess." :: ("You guessed: " ++ Nat.repr guess) ::
             "Too big!" :: (loopRun secret_number fuel rest).1,
           (loopRun secret_number fuel rest).2)
        | Ordering.eq =>
          (["Please input your guess.", "You guessed: " ++ Nat.repr guess, "You win!"],
           Outcome.won)

/-- `main`: print the banner "Guess the number!", then enter the loop with
the drawn secret number. -/
def mainRun (secret_number fuel : Nat) (input : List ReadEvent) : List String × Outcome :=
  ("Guess the number!" :: (loopRun secret_number fuel input).1,
   (loopRun secret_number fuel input).2)

/-- Model of `rand::thread_rng().gen_range(lo..=hi)` from the rand crate
(an external dependency, not part of this repository): a uniform draw from
the closed range `lo..=hi`, written as a function of an abstract uniform
source `r`. -/
def genRange (lo hi r : Nat) : Nat :=
  lo + r % (hi - lo + 1)

/-- The secret number of main.rs line 29: `gen_range(1..=100)`. -/
def secretNumber (r : Nat) : Nat :=
  genRange 1 100 r

/-- Control status of the game loop: still looping, broken out after
"You win!", or aborted by the read panic. -/
inductive Status where
  | playing
  | wonFinal
  | aborted
deriving DecidableEq

/-- A snapshot of the running program: the immutable secret number, the
remaining input stream, the output printed so far, and the control status. -/
structure GState where
  secret : Nat
  input : List ReadEvent
  output : List String
  status : Status
deriving DecidableEq

/-- Small-step transition relation of one loop iteration, mirroring the same
branches as `loopRun`: a failed read panics; an unparsable line is silently
skipped; an accepted guess is echoed and compared, printing "Too small!",
"Too big!", or "You win!" (the last one leaving the loop). -/
inductive Step : GState → GState → Prop where
  | ioErr (st : GState) (rest : List ReadEvent)
      (hst : st.status = Status.playing)
      (hin : st.input = ReadEvent.ioError :: rest) :
      Step st ⟨st.secret, rest,
        st.output ++ ["Please input your guess."], Status.aborted⟩
  | parseFail (st : GState) (raw : String) (rest : List ReadEvent)
      (hst : st.status = Status.playing)
      (hread : readLine st.input = some (raw, rest))
      (hp : parseU32 (rustTrim raw) = none) :
      Step st ⟨st.secret, rest,
        st.output ++ ["Please input your guess."], Status.playing⟩
  | less (st : GState) (raw : String) (rest : List ReadEvent) (guess : Nat)
      (hst : st.status = Status.playing)
      (hread : readLine st.input = some (raw, rest))
      (hp : parseU32 (rustTrim raw) = some guess)
      (hcmp : cmpU32 guess st.secret = Ordering.lt) :
      Step st ⟨st.secret, rest,
        st.output ++ ["Please input your guess.",
          "You guessed: " ++ Nat.repr guess, "Too small!"], Status.playing⟩
  | greater (st : GState) (raw : String) (rest : List ReadEvent) (guess : Nat)
      (hst : st.status = Status.playing)
      (hread : readLine st.input = some (raw, rest))
      (hp : parseU32 (rustTrim raw) = some guess)
      (hcmp : cmpU32 guess st.secret = Ordering.gt) :
      Step st ⟨st.secret, rest,
        st.output ++ ["Please input your guess.",
          "You guessed: " ++ Nat.repr guess, "Too big!"], Status.playing⟩
  | equal (st : GState) (raw : String) (rest : List ReadEvent) (guess : Nat)
      (hst : st.status = Status.playing)
      (hread : readLine st.input = some (raw, rest))
      (hp : parseU32 (rustTrim raw) = some guess)
      (hcmp : cmpU32 guess st.secret = Ordering.eq) :
      Step st ⟨st.secret, rest,
        st.output ++ ["Please input your guess.",
          "You guessed: " ++ Nat.repr guess, "You win!"], Status.wonFinal⟩

/-! ### Helper lemmas -/

theorem dropWhile_append_of_all {p : Char → Bool} :
    ∀ l1 l2 : List Char, l1.all p = true →
      (l1 ++ l2).dropWhile p = l2.dropWhile p := by
  intro l1 l2 h
  induction l1 with
  | nil => rfl
  | cons c cs ih =>
    simp only [List.all_cons, Bool.and_eq_true] at h
    simp [List.dropWhile_cons, h.1, ih h.2]

theorem dropWhile_cons_of_neg {p : Char → Bool} {c : Char} (l : List Char)
    (h : p c = false) : (c :: l).dropWhile p = c :: l := by
  simp [List.dropWhile_cons, h]

theorem not_ws_of_digit (c : Char) (h : isAsciiDigit c = true) :
    isRustWhitespace c = false := by
  simp only [isAsciiDigit, Bool.and_eq_true, decide_eq_true_eq] at h
  simp only [isRustWhitespace, Bool.or_eq_false_iff, Bool.and_eq_false_iff,
    beq_eq_false_iff_ne, ne_eq, decide_eq_false_iff_not, not_le]
  omega

theorem trimChars_sandwich (w1 w2 d : List Char)
    (hw1 : w1.all isRustWhitespace = true)
    (hw2 : w2.all isRustWhitespace = true)
    (hne : d ≠ []) (hd : d.all isAsciiDigit = true) :
    trimChars (w1 ++ (d ++ w2)) = d := by
  obtain ⟨c, ds, rfl⟩ := List.exists_cons_of_ne_nil hne
  have hdc : isRustWhitespace c = false := by
    apply not_ws_of_digit
    simp only [List.all_cons, Bool.and_eq_true] at hd
    exact hd.1
  unfold trimChars
  rw [dropWhile_append_of_all _ _ hw1, List.cons_append,
    dropWhile_cons_of_neg _ hdc, ← List.cons_append, List.reverse_append,
    dropWhile_append_of_all _ _ (by rw [List.all_reverse]; exact hw2)]
  rcases hr : (c :: ds).reverse with _ | ⟨c', l'⟩
  · simp at hr
  · have hall : ((c :: ds).reverse.all isAsciiDigit) = true := by
      rw [List.all_reverse]; exact hd
    rw [hr, List.all_cons, Bool.and_eq_true] at hall
    rw [dropWhile_cons_of_neg _ (not_ws_of_digit c' hall.1), ← hr,
      List.reverse_reverse]

theorem parseU32_all_digits (d : List Char) (hne : d ≠ [])
    (hd : d.all isAsciiDigit = true) (hv : digitsVal d < 2 ^ 32) :
    parseU32 (String.mk d) = some (digitsVal d) := by
  obtain ⟨c, ds, rfl⟩ := List.exists_cons_of_ne_nil hne
  have hcd : isAsciiDigit c = true := by
    simp only [List.all_cons, Bool.and_eq_true] at hd
    exact hd.1
  have hcp : (some c == some '+') = false := by
    simp only [isAsciiDigit, Bool.and_eq_true, decide_eq_true_eq] at hcd
    simp only [beq_eq_false_iff_ne, ne_eq, Option.some.injEq]
    intro h
    subst h
    simp at hcd
  simp only [parseU32, List.head?, hcp, Bool.false_eq_true, if_false,
    List.isEmpty_cons, hd, if_true, hv, reduceCtorEq]

theorem string_append_ne_of_head (a b t : String) (c : Char) (l : List Char)
    (ha : a.data = c :: l) (ht : t.data.head? ≠ some c) : a ++ b ≠ t := by
  intro h
  apply ht
  have hd := congrArg String.data h
  rw [String.data_append, ha] at hd
  rw [← hd]
  rfl

theorem echo_ne_win (g : Nat) :
    ("You guessed: " ++ Nat.repr g) ≠ "You win!" := by
  intro h
  have hl := congrArg String.length h
  rw [String.length_append] at hl
  have h1 : ("You guessed: " : String).length = 13 := rfl
  have h2 : ("You win!" : String).length = 8 := rfl
  omega

theorem echo_ne_banner (g : Nat) :
    ("You guessed: " ++ Nat.repr g) ≠ "Guess the number!" :=
  string_append_ne_of_head _ _ _ 'Y' "ou guessed: ".data rfl (by decide)

theorem cmpU32_self (a : Nat) : cmpU32 a a = Ordering.eq := by
  simp [cmpU32]

theorem cmpU32_of_lt {a b : Nat} (h : a < b) : cmpU32 a b = Ordering.lt := by
  simp [cmpU32, h]

theorem cmpU32_of_gt {a b : Nat} (h : b < a) : cmpU32 a b = Ordering.gt := by
  unfold cmpU32
  rw [if_neg (by omega), if_pos h]

theorem loopRun_ioError (secret fuel : Nat) (rest : List ReadEvent) :
    loopRun secret (fuel + 1) (ReadEvent.ioError :: rest) =
      (["Please input your guess."], Outcome.panicked "Failed to read line") := by
  simp [loopRun, readLine]

theorem loopRun_parseFail (secret fuel : Nat) (s : String) (rest : List ReadEvent)
    (h : parseU32 (rustTrim s) = none) :
    loopRun secret (fuel + 1) (ReadEvent.line s :: rest) =
      ("Please input your guess." :: (loopRun secret fuel rest).1,
       (loopRun secret fuel rest).2) := by
  simp [loopRun, readLine, h]

theorem loopRun_eof (secret fuel : Nat) :
    loopRun secret (fuel + 1) [] =
      ("Please input your guess." :: (loopRun secret fuel []).1,
       (loopRun secret fuel []).2) := by
  have h : parseU32 (rustTrim "") = none := rfl
  simp [loopRun, readLine, h]

theorem loopRun_less (secret fuel : Nat) (s : String) (rest : List ReadEvent)
    (g : Nat) (h : parseU32 (rustTrim s) = some g) (hlt : g < secret) :
    loopRun secret (fuel + 1) (ReadEvent.line s :: rest) =
      ("Please input your guess." :: ("You guessed: " ++ Nat.repr g) ::
         "Too small!" :: (loopRun secret fuel rest).1,
       (loopRun secret fuel rest).2) := by
  simp [loopRun, readLine, h, cmpU32_of_lt hlt]

theorem loopRun_greater (secret fuel : Nat) (s : String) (rest : List ReadEvent)
    (g : Nat) (h : parseU32 (rustTrim s) = some g) (hgt : secret < g) :
    loopRun secret (fuel + 1) (ReadEvent.line s :: rest) =
      ("Please input your guess." :: ("You guessed: " ++ Nat.repr g) ::
         "Too big!" :: (loopRun secret fuel rest).1,
       (loopRun secret fuel rest).2) := by
  simp [loopRun, readLine, h, cmpU32_of_gt hgt]

theorem loopRun_equal (secret fuel : Nat) (s : String) (rest : List ReadEvent)
    (h : parseU32 (rustTrim s) = some secret) :
    loopRun secret (fuel + 1) (ReadEvent.line s :: rest) =
      (["Please input your guess.", "You guessed: " ++ Nat.repr secret, "You win!"],
       Outcome.won) := by
  simp [loopRun, readLine, h, cmpU32_self]

theorem loopRun_head_prompt (secret fuel : Nat) (input : List ReadEvent) :
    (loopRun secret (fuel + 1) input).1.head? = some "Please input your guess." := by
  match input with
  | [] =>
    rw [loopRun_eof]
    rfl
  | ReadEvent.ioError :: rest =>
    rw [loopRun_ioError]
    rfl
  | ReadEvent.line s :: rest =>
    rcases hp : parseU32 (rustTrim s) with _ | g
    · rw [loopRun_parseFail _ _ _ _ hp]
      rfl
    · rcases Nat.lt_trichotomy g secret with hlt | heq | hgt
      · rw [loopRun_less _ _ _ _ _ hp hlt]
        rfl
      · subst heq
        rw [loopRun_equal _ _ _ _ hp]
        rfl
      · rw [loopRun_greater _ _ _ _ _ hp hgt]
        rfl

theorem banner_notMem_loopRun (secret : Nat) :
    ∀ (fuel : Nat) (input : List ReadEvent),
      "Guess the number!" ∉ (loopRun secret fuel input).1 := by
  intro fuel
  induction fuel with
  | zero =>
    intro input
    simp [loopRun]
  | succ n ih =>
    intro input
    match input with
    | [] =>
      rw [loopRun_eof]
      simp only [List.mem_cons, not_or]
      exact ⟨by decide, ih []⟩
    | ReadEvent.ioError :: rest =>
      rw [loopRun_ioError]
      decide
    | ReadEvent.line s :: rest =>
      rcases hp : parseU32 (rustTrim s) with _ | g
      · rw [loopRun_parseFail _ _ _ _ hp]
        simp only [List.mem_cons, not_or]
        exact ⟨by decide, ih rest⟩
      · rcases Nat.lt_trichotomy g secret with hlt | heq | hgt
        · rw [loopRun_less _ _ _ _ _ hp hlt]
          simp only [List.mem_cons, not_or]
          exact ⟨by decide, fun h => echo_ne_banner g h.symm, by decide, ih rest⟩
        · subst heq
          rw [loopRun_equal _ _ _ _ hp]
          simp only [List.mem_cons, not_or]
          exact ⟨by decide, fun h => echo_ne_banner g h.symm, by decide, by simp⟩
        · rw [loopRun_greater _ _ _ _ _ hp hgt]
          simp only [List.mem_cons, not_or]
          exact ⟨by decide, fun h => echo_ne_banner g h.symm, by decide, ih rest⟩

/-! ### Claims -/

/-- Claim C1: any input line that trims to a valid integer equal to the
secret number makes the program print "You win!", end the loop within that
same iteration (the output and outcome do not depend on the rest of the
input, and the iteration prints no further prompt), and exit with success
code 0. -/
theorem c1_win_terminates_iteration (secret fuel : Nat) (s : String)
    (rest : List ReadEvent) (h : parseU32 (rustTrim s) = some secret) :
    loopRun secret (fuel + 1) (ReadEvent.line s :: rest) =
      (["Please input your guess.", "You guessed: " ++ Nat.repr secret,
        "You win!"], Outcome.won) ∧
    exitCode (loopRun secret (fuel + 1) (ReadEvent.line s :: rest)).2 = some 0 := by
  have he := loopRun_equal secret fuel s rest h
  exact ⟨he, by rw [he]; rfl⟩

/-- Witness for C1 at secret 42 and input line "42\n". -/
theorem c1_witness :
    loopRun 42 (0 + 1) [ReadEvent.line "42\n"] =
      (["Please input your guess.", "You guessed: " ++ Nat.repr 42,
        "You win!"], Outcome.won) ∧
    exitCode (loopRun 42 (0 + 1) [ReadEvent.line "42\n"]).2 = some 0 :=
  c1_win_terminates_iteration 42 0 "42\n" [] (by decide)

/-- Claim C2: a line trimming to a valid integer strictly below the secret
number prints "Too small!" and the loop continues on the remaining input;
strictly above, it prints "Too big!" and continues likewise. -/
theorem c2_small_big_continue (secret fuel g : Nat) (s : String)
    (rest : List ReadEvent) (h : parseU32 (rustTrim s) = some g) :
    (g < secret →
      loopRun secret (fuel + 1) (ReadEvent.line s :: rest) =
        ("Please input your guess." :: ("You guessed: " ++ Nat.repr g) ::
           "Too small!" :: (loopRun secret fuel rest).1,
         (loopRun secret fuel rest).2)) ∧
    (secret < g →
      loopRun secret (fuel + 1) (ReadEvent.line s :: rest) =
        ("Please input your guess." :: ("You guessed: " ++ Nat.repr g) ::
           "Too big!" :: (loopRun secret fuel rest).1,
         (loopRun secret fuel rest).2)) :=
  ⟨fun hlt => loopRun_less secret fuel s rest g h hlt,
   fun hgt => loopRun_greater secret fuel s rest g h hgt⟩

/-- Witness for C2 at secret 5 with guesses 3 (too small) and 7 (too big). -/
theorem c2_witness :
    (3 < 5 ∧
      loopRun 5 (0 + 1) [ReadEvent.line "3\n"] =
        ("Please input your guess." :: ("You guessed: " ++ Nat.repr 3) ::
           "Too small!" :: (loopRun 5 0 []).1, (loopRun 5 0 []).2)) ∧
    (5 < 7 ∧
      loopRun 5 (0 + 1) [ReadEvent.line "7\n"] =
        ("Please input your guess." :: ("You guessed: " ++ Nat.repr 7) ::
           "Too big!" :: (loopRun 5 0 []).1, (loopRun 5 0 []).2)) :=
  ⟨⟨by decide, (c2_small_big_continue 5 0 3 "3\n" [] (by decide)).1 (by decide)⟩,
   ⟨by decide, (c2_small_big_continue 5 0 7 "7\n" [] (by decide)).2 (by decide)⟩⟩

/-- Claim C3: a line that does not trim to a valid u32 integer produces no
outcome line, no echo and no error message — the iteration only prints the
prompt and the loop continues, the next iteration starting with the prompt
again. -/
theorem c3_invalid_line_silent (secret fuel : Nat) (s : String)
    (rest : List ReadEvent) (h : parseU32 (rustTrim s) = none) :
    loopRun secret (fuel + 1 + 1) (ReadEvent.line s :: rest) =
      ("Please input your guess." :: (loopRun secret (fuel + 1) rest).1,
       (loopRun secret (fuel + 1) rest).2) ∧
    (loopRun secret (fuel + 1) rest).1.head? = some "Please input your guess." :=
  ⟨loopRun_parseFail secret (fuel + 1) s rest h,
   loopRun_head_prompt secret fuel rest⟩

/-- Witness for C3: the spec's example inputs all fail to parse, and the
line "abc\n" is silently skipped with a re-prompt. -/
theorem c3_witness :
    parseU32 (rustTrim "abc\n") = none ∧
    parseU32 (rustTrim "") = none ∧
    parseU32 (rustTrim "-5\n") = none ∧
    parseU32 (rustTrim "3.14\n") = none ∧
    parseU32 (rustTrim "4294967296\n") = none ∧
    (loopRun 10 (0 + 1 + 1) [ReadEvent.line "abc\n"] =
      ("Please input your guess." :: (loopRun 10 (0 + 1) []).1,
       (loopRun 10 (0 + 1) []).2) ∧
     (loopRun 10 (0 + 1) []).1.head? = some "Please input your guess.") :=
  ⟨by decide, by decide, by decide, by decide, by decide,
   c3_invalid_line_silent 10 0 "abc\n" [] (by decide)⟩

/-- Claim C4: the secret number drawn by `gen_range(1..=100)` always lies in
the closed range [1, 100], and both endpoints are reachable. -/
theorem c4_secret_range :
    (∀ r : Nat, 1 ≤ secretNumber r ∧ secretNumber r ≤ 100) ∧
    (∃ r : Nat, secretNumber r = 1) ∧ (∃ r : Nat, secretNumber r = 100) := by
  refine ⟨fun r => ?_, ⟨0, rfl⟩, ⟨99, rfl⟩⟩
  unfold secretNumber genRange
  omega

/-- Counterexample to claim C5 as stated: with the input stream at
end-of-file from the start (no line ever available), the program does NOT
terminate abnormally — `read_line` returns `Ok(0)`, the empty buffer fails
to parse, and the loop silently re-prompts on every iteration (here three
iterations), never reaching the panic. -/
theorem c5_counterexample :
    loopRun 50 3 [] =
      (["Please input your guess.", "Please input your guess.",
        "Please input your guess."], Outcome.running) ∧
    (loopRun 50 3 []).2 ≠ Outcome.panicked "Failed to read line" ∧
    exitCode (loopRun 50 3 []).2 = none := by
  decide

/-- Claim C5 as amended: only a genuine I/O error of the underlying read is
fatal — it panics with the diagnostic "Failed to read line" and exit code
101, without retrying; end-of-file is not such an error: at EOF the loop
keeps running (it never wins and never panics), re-prompting forever. -/
theorem c5_amended_io_error_fatal (secret fuel : Nat) (rest : List ReadEvent) :
    loopRun secret (fuel + 1) (ReadEvent.ioError :: rest) =
      (["Please input your guess."], Outcome.panicked "Failed to read line") ∧
    exitCode (loopRun secret (fuel + 1) (ReadEvent.ioError :: rest)).2 = some 101 ∧
    (∀ f : Nat, (loopRun secret f []).2 = Outcome.running) := by
  have h1 := loopRun_ioError secret fuel rest
  refine ⟨h1, by rw [h1]; rfl, ?_⟩
  intro f
  induction f with
  | zero => rfl
  | succ n ih =>
    rw [loopRun_eof]
    exact ih

/-- Claim C6: the standard-output trace starts with the banner
"Guess the number!", which is emitted exactly once; and in every iteration
whose line parses to an accepted guess, the prompt precedes the echo
"You guessed: n", which precedes the outcome line (one of "Too small!",
"Too big!", "You win!"). -/
theorem c6_output_order (secret fuel : Nat) (input : List ReadEvent) :
    (mainRun secret fuel input).1.head? = some "Guess the number!" ∧
    (mainRun secret fuel input).1.count "Guess the number!" = 1 ∧
    (∀ (s : String) (g f2 : Nat) (rest : List ReadEvent),
      parseU32 (rustTrim s) = some g →
      ∃ (tail : List String) (o : Outcome),
        loopRun secret (f2 + 1) (ReadEvent.line s :: rest) =
          ("Please input your guess." :: ("You guessed: " ++ Nat.repr g) ::
            tail, o) ∧
        (tail.head? = some "Too small!" ∨ tail.head? = some "Too big!" ∨
         tail.head? = some "You win!")) := by
  refine ⟨rfl, ?_, ?_⟩
  · show ("Guess the number!" :: (loopRun secret fuel input).1).count
      "Guess the number!" = 1
    rw [List.count_cons,
      List.count_eq_zero.2 (banner_notMem_loopRun secret fuel input)]
    simp
  · intro s g f2 rest hp
    rcases Nat.lt_trichotomy g secret with hlt | heq | hgt
    · exact ⟨"Too small!" :: (loopRun secret f2 rest).1,
        (loopRun secret f2 rest).2,
        loopRun_less secret f2 s rest g hp hlt, Or.inl rfl⟩
    · subst heq
      exact ⟨["You win!"], Outcome.won, loopRun_equal _ f2 s rest hp,
        Or.inr (Or.inr rfl)⟩
    · exact ⟨"Too big!" :: (loopRun secret f2 rest).1,
        (loopRun secret f2 rest).2,
        loopRun_greater secret f2 s rest g hp hgt, Or.inr (Or.inl rfl)⟩

/-- Witness for C6: the per-iteration ordering conjunct instantiated at
secret 42 and the accepted guess 7. -/
theorem c6_witness :
    ∃ (tail : List String) (o : Outcome),
      loopRun 42 (0 + 1) [ReadEvent.line "7\n"] =
        ("Please input your guess." :: ("You guessed: " ++ Nat.repr 7) ::
          tail, o) ∧
      (tail.head? = some "Too small!" ∨ tail.head? = some "Too big!" ∨
       tail.head? = some "You win!") :=
  (c6_output_order 42 0 []).2.2 "7\n" 7 0 [] (by decide)

/-- Claim C7: a line made of a decimal digit string, optionally surrounded
by whitespace and terminated by "\n" or "\r\n" (both conventions tolerated),
is trimmed and accepted by the parse step, yielding exactly the base-10
value of the digits (when that value fits in u32). -/
theorem c7_trim_parse (w1 w2 d : List Char) (t : String)
    (hw1 : w1.all isRustWhitespace = true)
    (hw2 : w2.all isRustWhitespace = true)
    (hne : d ≠ []) (hd : d.all isAsciiDigit = true)
    (ht : t = "\n" ∨ t = "\r\n")
    (hv : digitsVal d < 2 ^ 32) :
    parseU32 (rustTrim (String.mk (w1 ++ (d ++ (w2 ++ t.data))))) =
      some (digitsVal d) := by
  have hwt : (w2 ++ t.data).all isRustWhitespace = true := by
    rw [List.all_append, hw2]
    rcases ht with rfl | rfl <;> decide
  have htr : rustTrim (String.mk (w1 ++ (d ++ (w2 ++ t.data)))) = String.mk d := by
    show String.mk (trimChars (w1 ++ (d ++ (w2 ++ t.data)))) = String.mk d
    rw [trimChars_sandwich w1 (w2 ++ t.data) d hw1 hwt hne hd]
  rw [htr]
  exact parseU32_all_digits d hne hd hv

/-- Witness for C7: " 42\r\n" (a space, the digits 42, a CRLF terminator)
parses to 42. -/
theorem c7_witness :
    parseU32 (rustTrim (String.mk ([' '] ++ (['4', '2'] ++
      (([] : List Char) ++ ("\r\n" : String).data))))) =
      some (digitsVal ['4', '2']) :=
  c7_trim_parse [' '] [] ['4', '2'] "\r\n" (by decide) (by decide)
    (by decide) (by decide) (Or.inr rfl) (by decide)

/-- Claim C8: there is no losing state and no iteration limit — if no input
line trims to a valid integer equal to the secret number, then however much
fuel the loop is given it never prints "You win!", never reaches the `won`
outcome, and never exits with success code 0. -/
theorem c8_no_win_without_correct_guess (secret : Nat) :
    ∀ (fuel : Nat) (input : List ReadEvent),
      (∀ s : String, ReadEvent.line s ∈ input →
        parseU32 (rustTrim s) ≠ some secret) →
      "You win!" ∉ (loopRun secret fuel input).1 ∧
      (loopRun secret fuel input).2 ≠ Outcome.won ∧
      exitCode (loopRun secret fuel input).2 ≠ some 0 := by
  intro fuel
  induction fuel with
  | zero =>
    intro input H
    exact ⟨by simp [loopRun], by simp [loopRun], by simp [loopRun, exitCode]⟩
  | succ n ih =>
    intro input H
    match input with
    | [] =>
      have h0 : ∀ s : String, ReadEvent.line s ∈ ([] : List ReadEvent) →
          parseU32 (rustTrim s) ≠ some secret := by simp
      obtain ⟨m1, m2, m3⟩ := ih [] h0
      rw [loopRun_eof]
      refine ⟨?_, m2, m3⟩
      show "You win!" ∉ "Please input your guess." :: (loopRun secret n []).1
      simp only [List.mem_cons, not_or]
      exact ⟨by decide, m1⟩
    | ReadEvent.ioError :: rest =>
      rw [loopRun_ioError]
      exact ⟨by decide, by decide, by decide⟩
    | ReadEvent.line s :: rest =>
      have Hs : parseU32 (rustTrim s) ≠ some secret :=
        H s (List.mem_cons_self _ _)
      have Hrest : ∀ s' : String, ReadEvent.line s' ∈ rest →
          parseU32 (rustTrim s') ≠ some secret :=
        fun s' h' => H s' (List.mem_cons_of_mem _ h')
      obtain ⟨m1, m2, m3⟩ := ih rest Hrest
      rcases hp : parseU32 (rustTrim s) with _ | g
      · rw [loopRun_parseFail _ _ _ _ hp]
        refine ⟨?_, m2, m3⟩
        show "You win!" ∉ "Please input your guess." :: (loopRun secret n rest).1
        simp only [List.mem_cons, not_or]
        exact ⟨by decide, m1⟩
      · have hg : g ≠ secret := fun he => Hs (he ▸ hp)
        rcases Nat.lt_trichotomy g secret with hlt | heq | hgt
        · rw [loopRun_less _ _ _ _ _ hp hlt]
          refine ⟨?_, m2, m3⟩
          show "You win!" ∉ "Please input your guess." ::
            ("You guessed: " ++ Nat.repr g) :: "Too small!" ::
            (loopRun secret n rest).1
          simp only [List.mem_cons, not_or]
          exact ⟨by decide, fun h => echo_ne_win g h.symm, by decide, m1⟩
        · exact absurd heq hg
        · rw [loopRun_greater _ _ _ _ _ hp hgt]
          refine ⟨?_, m2, m3⟩
          show "You win!" ∉ "Please input your guess." ::
            ("You guessed: " ++ Nat.repr g) :: "Too big!" ::
            (loopRun secret n rest).1
          simp only [List.mem_cons, not_or]
          exact ⟨by decide, fun h => echo_ne_win g h.symm, by decide, m1⟩

/-- Witness for C8: with secret 42 and the single wrong guess "7\n", two
iterations of loop never win and never exit successfully. -/
theorem c8_witness :
    "You win!" ∉ (loopRun 42 2 [ReadEvent.line "7\n"]).1 ∧
    (loopRun 42 2 [ReadEvent.line "7\n"]).2 ≠ Outcome.won ∧
    exitCode (loopRun 42 2 [ReadEvent.line "7\n"]).2 ≠ some 0 :=
  c8_no_win_without_correct_guess 42 2 [ReadEvent.line "7\n"] (by
    intro s hs
    rw [List.mem_singleton] at hs
    injection hs with h
    subst h
    decide)

/-- Claim C9: an input line trimming to "0" parses successfully (the
comparison domain is unsigned, so zero is a valid guess), but the secret
number is always at least 1, so such a line always prints "Too small!" and
the loop continues — it can never win. -/
theorem c9_zero_guess (r fuel : Nat) (s : String) (rest : List ReadEvent)
    (h : parseU32 (rustTrim s) = some 0) :
    1 ≤ secretNumber r ∧
    loopRun (secretNumber r) (fuel + 1) (ReadEvent.line s :: rest) =
      ("Please input your guess." :: ("You guessed: " ++ Nat.repr 0) ::
         "Too small!" :: (loopRun (secretNumber r) fuel rest).1,
       (loopRun (secretNumber r) fuel rest).2) := by
  have h1 : 1 ≤ secretNumber r := by
    unfold secretNumber genRange
    omega
  exact ⟨h1, loopRun_less _ _ _ _ _ h (by omega)⟩

/-- Witness for C9: the line "0\n" parses to 0 and is "Too small!" against
the secret drawn from randomness source 0. -/
theorem c9_witness :
    parseU32 (rustTrim "0\n") = some 0 ∧
    (1 ≤ secretNumber 0 ∧
      loopRun (secretNumber 0) (0 + 1) [ReadEvent.line "0\n"] =
        ("Please input your guess." :: ("You guessed: " ++ Nat.repr 0) ::
           "Too small!" :: (loopRun (secretNumber 0) 0 []).1,
         (loopRun (secretNumber 0) 0 []).2)) :=
  ⟨by decide, c9_zero_guess 0 0 "0\n" [] (by decide)⟩

/-- Claim C10: apart from the one random draw fixed in the state, the
program is deterministic — from any state, the loop's transition relation
allows exactly one successor, so two runs with the same secret number and
the same input stream produce identical output and termination behavior. -/
theorem c10_step_deterministic (st a b : GState)
    (h1 : Step st a) (h2 : Step st b) : a = b := by
  cases h1 <;> cases h2 <;> simp_all [readLine]

/-- Witness for C10: the two (identical) transitions out of the concrete
state with secret 50 and pending line "7\n" lead to the same state. -/
theorem c10_witness :
    (⟨50, [], ["Please input your guess.", "You guessed: " ++ Nat.repr 7,
      "Too small!"], Status.playing⟩ : GState) =
    ⟨50, [], ["Please input your guess.", "You guessed: " ++ Nat.repr 7,
      "Too small!"], Status.playing⟩ := by
  have h : Step ⟨50, [ReadEvent.line "7\n"], [], Status.playing⟩
      ⟨50, [], ["Please input your guess.", "You guessed: " ++ Nat.repr 7,
        "Too small!"], Status.playing⟩ := by
    have h0 := Step.less ⟨50, [ReadEvent.line "7\n"], [], Status.playing⟩
      "7\n" [] 7 rfl rfl (by decide) (by decide)
    exact h0
  exact c10_step_deterministic _ _ _ h h

end GuessingGame
